import Mathlib

/-!
Verification of the rabble routing/metrics core against its specification.

The histogram component (src/histogram.rs) wraps an external recorder
(the hdrhistogram crate) whose bucket algorithm the spec declares out of
scope; only the reversible encoding envelope around it is specified.  We
model the recorder state and its compact V2 binary format concretely and
reversibly, and translate the Serialize/Deserialize impls of
src/histogram.rs over that model.

The Node facade (src/node.rs) is translated with explicit state passing:
the process registry and the outbound cluster channel become fields of an
explicit state, mpsc channel sends become pure queue updates that fail
when the channel is closed, and a Rust panic is modelled as Option.none.
-/

namespace Rabble

/-- Modelled from the spec: the compact variable-length integer encoding used
by the external recorder's native binary format.  Low seven bits first, a
continuation marker of 128 added to every byte except the last. -/
def encLEB (n : Nat) : List Nat :=
  if n < 128 then [n]
  else (n % 128 + 128) :: encLEB (n / 128)
termination_by n
decreasing_by
  exact Nat.div_lt_self (by omega) (by omega)

/-- Modelled from the spec: decoder for encLEB.  Returns the decoded value and
the remaining bytes, or a diagnostic message on truncated input. -/
def decLEB : List Nat → Except String (Nat × List Nat)
  | [] => .error "unexpected end of buffer"
  | b :: rest =>
    if b < 128 then .ok (b, rest)
    else
      match decLEB rest with
      | .ok (m, r) => .ok (b - 128 + 128 * m, r)
      | .error e => .error e

theorem decLEB_encLEB (n : Nat) (tl : List Nat) :
    decLEB (encLEB n ++ tl) = .ok (n, tl) := by
  induction n using Nat.strong_induction_on with
  | _ n ih =>
    rw [encLEB]
    by_cases h : n < 128
    · simp [h, decLEB]
    · have hd : n / 128 < n := Nat.div_lt_self (by omega) (by omega)
      have h2 : ¬ (n % 128 + 128 < 128) := by omega
      simp only [if_neg h, List.cons_append, decLEB, if_neg h2, ih (n / 128) hd]
      have harith : n % 128 + 128 - 128 + 128 * (n / 128) = n := by omega
      rw [harith]

/-- Modelled from the spec: the recorder state of the external histogram
library, as the data its reversible encoding must carry: the configured number
of significant figures and the bucket counts, kept as a list of
(value, count) pairs. -/
structure HdrHist where
  significant_figures : Nat
  counts : List (Nat × Nat)
deriving DecidableEq, Repr

/-- Modelled from the spec: the per-bucket payload of the native binary
format, each (value, count) pair encoded with encLEB. -/
def encPairs : List (Nat × Nat) → List Nat
  | [] => []
  | (v, c) :: rest => encLEB v ++ (encLEB c ++ encPairs rest)

/-- Modelled from the spec: decoder for encPairs, reading exactly k pairs. -/
def decPairs : Nat → List Nat → Except String (List (Nat × Nat) × List Nat)
  | 0, bs => .ok ([], bs)
  | k + 1, bs =>
    match decLEB bs with
    | .error e => .error e
    | .ok (v, r1) =>
      match decLEB r1 with
      | .error e => .error e
      | .ok (c, r2) =>
        match decPairs k r2 with
        | .error e => .error e
        | .ok (ps, r3) => .ok ((v, c) :: ps, r3)

theorem decPairs_encPairs (l : List (Nat × Nat)) (tl : List Nat) :
    decPairs l.length (encPairs l ++ tl) = .ok (l, tl) := by
  induction l generalizing tl with
  | nil => rfl
  | cons p rest ih =>
    obtain ⟨v, c⟩ := p
    simp only [List.length_cons, encPairs, List.append_assoc, decPairs,
      decLEB_encLEB, ih]

/-- Modelled from the spec: the header cookie byte identifying the compact V2
binary format of the external recorder. -/
def v2Cookie : Nat := 28

/-- Modelled from the spec: the native compact V2 binary encoding of the
recorder — header cookie, significant figures, bucket count, then the
encoded buckets.  Order preserving and reversible. -/
def v2encode (h : HdrHist) : List Nat :=
  v2Cookie :: (encLEB h.significant_figures ++
    (encLEB h.counts.length ++ encPairs h.counts))

/-- Modelled from the spec: the decoder of the compact V2 binary format, the
exact inverse of v2encode; fails with a diagnostic on malformed or truncated
input. -/
def v2decode (bs : List Nat) : Except String HdrHist :=
  match bs with
  | [] => .error "unexpected end of buffer"
  | b :: rest =>
    if b = v2Cookie then
      match decLEB rest with
      | .error e => .error e
      | .ok (sf, r1) =>
        match decLEB r1 with
        | .error e => .error e
        | .ok (k, r2) =>
          match decPairs k r2 with
          | .error e => .error e
          | .ok (cs, _) => .ok ⟨sf, cs⟩
    else .error "invalid cookie"

theorem v2decode_v2encode (h : HdrHist) : v2decode (v2encode h) = .ok h := by
  obtain ⟨sf, cs⟩ := h
  have hpairs := decPairs_encPairs cs []
  rw [List.append_nil] at hpairs
  simp only [v2encode, v2decode, if_pos rfl, decLEB_encLEB, hpairs]
  simp

/-- Modelled from the spec: recording one sample into the external recorder,
as one more count in the bucket for that value, represented canonically as a
list sorted by value. -/
def insertCount : List (Nat × Nat) → Nat → List (Nat × Nat)
  | [], v => [(v, 1)]
  | (w, c) :: rest, v =>
    if v = w then (w, c + 1) :: rest
    else if v < w then (v, 1) :: (w, c) :: rest
    else (w, c) :: insertCount rest v

/-- Modelled from the spec: record(value) adds one sample to the recorder. -/
def HdrHist.record (h : HdrHist) (v : Nat) : HdrHist :=
  { h with counts := insertCount h.counts v }

/-- Modelled from the spec: len() is the total number of recorded samples. -/
def HdrHist.len (h : HdrHist) : Nat :=
  (h.counts.map Prod.snd).sum

/-- Modelled from the spec: the bucket walk behind value_at_percentile —
accumulate counts in value order and return the first value whose cumulative
count reaches the target. -/
def valueAtCount : List (Nat × Nat) → Nat → Nat
  | [], _ => 0
  | (v, c) :: rest, t => if t ≤ c then v else valueAtCount rest (t - c)

/-- Modelled from the spec: value_at_percentile(p).  The percentile is carried
as an exact per-mille numerator (500 for 50.0, 999 for 99.9) since the model
is over exact arithmetic; the target rank is rounded half up and clamped to at
least one sample, then resolved by the bucket walk. -/
def HdrHist.valueAtPerMille (h : HdrHist) (pm : Nat) : Nat :=
  valueAtCount h.counts (max 1 ((pm * h.len + 500) / 1000))

/-- A histogram that can be serialized via Serde: the struct Histogram of
src/histogram.rs, a newtype over the external recorder.  Its derived equality
delegates to the recorder's full structural equality. -/
structure Histogram where
  hist : HdrHist
deriving DecidableEq, Repr

/-- Histogram::new() of src/histogram.rs: an empty recorder with three
significant figures. -/
def Histogram.new : Histogram :=
  ⟨⟨3, []⟩⟩

/-- The outer Serde data model, reduced to the shapes the histogram codec can
produce or reject: a single opaque byte string, a per-element sequence, or
some other value. -/
inductive SerdeValue where
  | bytes (bs : List Nat)
  | seq (elems : List SerdeValue)
  | other

/-- The Serialize impl for Histogram of src/histogram.rs lines 32 to 46:
serialize the recorder using its native V2 serialization into a buffer, then
hand that buffer to the outer serializer as one opaque byte string (the
serde_bytes Bytes path), not element by element. -/
def Histogram.serialize (h : Histogram) : SerdeValue :=
  SerdeValue.bytes (v2encode h.hist)

/-- Modelled from the spec: the error-wrapping applied by the Deserialize impl
(de Error custom of the decoder's diagnostic text). -/
def serdeCustom (e : String) : String :=
  "custom: " ++ e

/-- The Deserialize impl for Histogram of src/histogram.rs lines 48 to 58:
read one byte buffer from the outer deserializer, run the recorder's native
deserializer on it, wrap its diagnostic on failure, and wrap the recorder on
success. -/
def Histogram.deserialize (v : SerdeValue) : Except String Histogram :=
  match v with
  | SerdeValue.bytes bs =>
    match v2decode bs with
    | .ok hh => .ok ⟨hh⟩
    | .error e => .error (serdeCustom e)
  | _ => .error "invalid type: expected byte buffer"

/-- Recording a whole sequence of samples into a fresh histogram. -/
def recordAll (vs : List Nat) : Histogram :=
  ⟨vs.foldl HdrHist.record Histogram.new.hist⟩

theorem deserialize_serialize (h : Histogram) :
    Histogram.deserialize (Histogram.serialize h) = .ok h := by
  simp only [Histogram.serialize, Histogram.deserialize, v2decode_v2encode]

/-- The TimeUnit tag of src/histogram.rs lines 8 to 14. -/
inductive TimeUnit where
  | Seconds
  | Milliseconds
  | Microseconds
  | Nanoseconds
deriving DecidableEq, Repr

/-- Modelled from the spec: NodeId is an opaque, comparable identifier for a
cluster member, a name and address pair, immutable once created (the node_id
module is not under src). -/
structure NodeId where
  name : String
  addr : String
deriving DecidableEq, Repr

/-- Modelled from the spec: the debug rendering of a NodeId used in error
descriptions. -/
def NodeId.debugStr (n : NodeId) : String :=
  n.name ++ "@" ++ n.addr

/-- Modelled from the spec: Pid is a globally unique address made of the
owning node and a name (the pid module is not under src). -/
structure Pid where
  node : NodeId
  name : String
deriving DecidableEq, Repr

/-- Modelled from the spec: CorrelationId identifies the process that issued
an outstanding request, the originating Pid plus a request tag (the
correlation_id module is not under src). -/
structure CorrelationId where
  pid : Pid
  request_tag : Nat
deriving DecidableEq, Repr

/-- Modelled from the spec: the cluster status payload read back from the out
of scope cluster component (the cluster module is not under src). -/
structure ClusterStatus where
  members : List NodeId
deriving DecidableEq, Repr

/-- Modelled from the spec: a named metric value; the histogram variant
carries the mergeable recorder (the metrics module is not under src). -/
inductive Metric where
  | Counter (n : Nat)
  | Gauge (n : Int)
  | Histogram (h : Histogram)
deriving DecidableEq, Repr

/-- The Msg enum of src/msg.rs: the closed message taxonomy with the generic
User payload escape hatch. -/
inductive Msg (T : Type) where
  | User (t : T)
  | ClusterStatus (s : ClusterStatus)
  | StartTimer (ms : Nat)
  | CancelTimer (c : Option CorrelationId)
  | Timeout
  | Shutdown
  | GetMetrics
  | Metrics (m : List (String × Metric))
deriving DecidableEq, Repr

/-- Modelled from the spec: the Envelope struct — from, to, payload and an
optional correlation id (the envelope module is not under src). -/
structure Envelope (T : Type) where
  from_ : Pid
  to_ : Pid
  msg : Msg T
  correlation_id : Option CorrelationId
deriving DecidableEq, Repr

/-- Modelled from the spec: the ClusterMsg enum consumed by the out of scope
cluster component (the cluster module is not under src); its variants are the
ones constructed by src/node.rs. -/
inductive ClusterMsg (T : Type) where
  | Join (n : NodeId)
  | Leave (n : NodeId)
  | GetStatus (c : CorrelationId)
  | Envelope (e : Envelope T)
  | Shutdown
deriving DecidableEq, Repr

/-- Modelled from the spec: the tagged error kind produced by the send macro
of src/node.rs lines 16 to 24 — a human readable description together with
the target Pid when known (the errors module is not under src). -/
inductive ErrorKind where
  | SendError (desc : String) (pid : Option Pid)
  | Msg (desc : String)
deriving DecidableEq, Repr

/-- Modelled from the spec: the inbound side of a routing target registered in
the process registry — a bounded queue that may be closed, in which case an
enqueue fails fast. -/
structure Mailbox (T : Type) where
  isOpen : Bool
  queue : List (Envelope T)
deriving DecidableEq, Repr

/-- Modelled from the spec: the Processes registry (the processes module is
not under src) — the concurrent map from Pid to routing target, modelled as
an association list. -/
structure Processes (T : Type) where
  entries : List (Pid × Mailbox T)
deriving DecidableEq, Repr

/-- Modelled from the spec: registry send — look up envelope.to; on hit
enqueue onto that target's inbound channel; on miss, or when the target's
channel is closed, hand the original envelope back unchanged. -/
def Processes.send (ps : Processes T) (e : Envelope T) :
    Processes T × Option (Envelope T) :=
  match ps.entries.find? (fun kv => kv.1 = e.to_) with
  | none => (ps, some e)
  | some (p, mb) =>
    if mb.isOpen then
      (⟨ps.entries.map (fun kv =>
        if kv.1 = p then (kv.1, ⟨mb.isOpen, mb.queue ++ [e]⟩) else kv)⟩, none)
    else (ps, some e)

/-- Modelled from the spec: registry kill — remove the entry if present;
idempotent, an absent Pid is not an error. -/
def Processes.kill (ps : Processes T) (p : Pid) : Processes T :=
  ⟨ps.entries.filter (fun kv => kv.1 ≠ p)⟩

/-- Modelled from the spec: registry shutdown — broadcast Shutdown to every
registered target, then clear the registry entirely so later sends fail
fast on the miss path. -/
def Processes.shutdown (_ : Processes T) : Processes T :=
  ⟨[]⟩

/-- Modelled from the standard library: the sending half of the mpsc channel
to the cluster component.  A send on an open channel appends to the queue; a
send on a closed channel fails, handing back exactly the message that was
sent (SendError). -/
structure Chan (T : Type) where
  isOpen : Bool
  queue : List (ClusterMsg T)
deriving DecidableEq, Repr

/-- Modelled from the standard library: Sender send for the cluster
channel. -/
def Chan.send (c : Chan T) (m : ClusterMsg T) :
    Chan T × Option (ClusterMsg T) :=
  if c.isOpen then ({ c with queue := c.queue ++ [m] }, none)
  else (c, some m)

/-- The Node struct of src/node.rs lines 30 to 36: the facade handle over the
registry and the outbound cluster channel.  The logger field carries no
routing state and is omitted. -/
structure Node (T : Type) where
  id : NodeId
  processes : Processes T
  cluster_tx : Chan T
deriving DecidableEq, Repr

/-- Node::send of src/node.rs lines 100 to 111: route by the destination's
node id — local envelopes are delegated to the registry, remote envelopes are
wrapped as ClusterMsg::Envelope and placed on the cluster channel; on any
failure the original envelope is handed back (the fallback arm of the match
mirrors the unreachable branch of the source closure). -/
def Node.send (n : Node T) (e : Envelope T) : Node T × Option (Envelope T) :=
  if e.to_.node = n.id then
    let r := n.processes.send e
    ({ n with processes := r.1 }, r.2)
  else
    let r := n.cluster_tx.send (ClusterMsg.Envelope e)
    ({ n with cluster_tx := r.1 },
     r.2.map (fun cm =>
       match cm with
       | ClusterMsg.Envelope env => env
       | _ => e))

/-- Node::join of src/node.rs lines 61 to 66, through the send macro: enqueue
ClusterMsg::Join, or fail with a tagged SendError carrying a description and
no target Pid. -/
def Node.join (n : Node T) (node_id : NodeId) : Except ErrorKind (Node T) :=
  match n.cluster_tx.send (ClusterMsg.Join node_id) with
  | (tx, none) => .ok { n with cluster_tx := tx }
  | (_, some _) =>
    .error (ErrorKind.SendError
      ("ClusterMsg::Join(" ++ node_id.debugStr ++ ")") none)

/-- Node::leave of src/node.rs lines 68 to 73, through the send macro. -/
def Node.leave (n : Node T) (node_id : NodeId) : Except ErrorKind (Node T) :=
  match n.cluster_tx.send (ClusterMsg.Leave node_id) with
  | (tx, none) => .ok { n with cluster_tx := tx }
  | (_, some _) =>
    .error (ErrorKind.SendError
      ("ClusterMsg::Leave(" ++ node_id.debugStr ++ ")") none)

/-- Node::stop of src/node.rs lines 81 to 84: remove the process from the
registry and return Ok unconditionally. -/
def Node.stop (n : Node T) (pid : Pid) : Except ErrorKind (Node T) :=
  .ok { n with processes := n.processes.kill pid }

/-- Node::cluster_status of src/node.rs lines 114 to 120, through the send
macro: clone the correlation id's originating Pid as the error target, then
enqueue ClusterMsg::GetStatus with the correlation id unchanged. -/
def Node.clusterStatus (n : Node T) (correlation_id : CorrelationId) :
    Except ErrorKind (Node T) :=
  let to_ := correlation_id.pid
  match n.cluster_tx.send (ClusterMsg.GetStatus correlation_id) with
  | (tx, none) => .ok { n with cluster_tx := tx }
  | (_, some _) =>
    .error (ErrorKind.SendError "ClusterMsg::GetStatus" (some to_))

/-- The observable effects of Node::shutdown, in execution order. -/
inductive Effect (T : Type) where
  | clusterEnqueue (m : ClusterMsg T)
  | registryShutdown
deriving DecidableEq, Repr

/-- Node::shutdown of src/node.rs lines 123 to 126: send ClusterMsg::Shutdown
on the cluster channel, unwrapping the result — a failed send panics, which
the model returns as none — then shut the registry down.  The effect list
records the two steps in the order the source performs them. -/
def Node.shutdown (n : Node T) : Option (Node T × List (Effect T)) :=
  match n.cluster_tx.send ClusterMsg.Shutdown with
  | (_, some _) => none
  | (tx, none) =>
    some ({ n with cluster_tx := tx, processes := n.processes.shutdown },
      [Effect.clusterEnqueue ClusterMsg.Shutdown, Effect.registryShutdown])

theorem processes_send_returns_original {T : Type} (ps : Processes T)
    (e e' : Envelope T) (h : (ps.send e).2 = some e') : e' = e := by
  unfold Processes.send at h
  cases hf : ps.entries.find? (fun kv => kv.1 = e.to_) with
  | none =>
    rw [hf] at h
    exact (Option.some_inj.mp h).symm
  | some kv =>
    obtain ⟨p, mb⟩ := kv
    rw [hf] at h
    by_cases ho : mb.isOpen = true
    · simp [ho] at h
    · simp only [Bool.not_eq_true] at ho
      simp [ho] at h
      exact h.symm

theorem chan_send_returns_original {T : Type} (c : Chan T)
    (m m' : ClusterMsg T) (h : (c.send m).2 = some m') : m' = m := by
  unfold Chan.send at h
  by_cases ho : c.isOpen = true
  · simp [ho] at h
  · simp only [Bool.not_eq_true] at ho
    simp [ho] at h
    exact h.symm

/-- Concrete fixtures used by the witnesses. -/
def nidA : NodeId := ⟨"node1", "127.0.0.1:5000"⟩

def nidB : NodeId := ⟨"node2", "127.0.0.1:5001"⟩

def pidA : Pid := ⟨nidA, "proc-a"⟩

def pidB : Pid := ⟨nidB, "proc-b"⟩

def corr1 : CorrelationId := ⟨pidA, 1⟩

def envLocal : Envelope String := ⟨pidA, pidA, Msg.User "hello", none⟩

def envRemote : Envelope String := ⟨pidA, pidB, Msg.User "hello", some corr1⟩

def openNode : Node String := ⟨nidA, ⟨[]⟩, ⟨true, []⟩⟩

def closedNode : Node String := ⟨nidA, ⟨[]⟩, ⟨false, []⟩⟩

/-- C1: Node::send routes by the destination's node id alone — a local
envelope (to_.node equal to the node's id) is delegated to the registry and
leaves the cluster channel untouched; a remote envelope leaves the registry
untouched and, when the cluster channel is open, is placed on it wrapped as
ClusterMsg::Envelope. -/
theorem node_send_routes_by_to_node {T : Type} (n : Node T) (e : Envelope T) :
    (e.to_.node = n.id →
      (Node.send n e).1.cluster_tx = n.cluster_tx ∧
      (Node.send n e).1.processes = (n.processes.send e).1 ∧
      (Node.send n e).2 = (n.processes.send e).2) ∧
    (e.to_.node ≠ n.id →
      (Node.send n e).1.processes = n.processes ∧
      (n.cluster_tx.isOpen = true →
        (Node.send n e).1.cluster_tx.queue =
          n.cluster_tx.queue ++ [ClusterMsg.Envelope e])) := by
  constructor
  · intro h
    simp [Node.send, h]
  · intro h
    refine ⟨by simp [Node.send, h], fun hop => ?_⟩
    simp [Node.send, h, Chan.send, hop]

/-- C1 witness: a concrete local envelope never reaches the cluster channel,
and a concrete remote envelope is enqueued on it wrapped as
ClusterMsg::Envelope. -/
theorem node_send_routes_by_to_node_witness :
    (envLocal.to_.node = openNode.id ∧
      (Node.send openNode envLocal).1.cluster_tx = openNode.cluster_tx) ∧
    (envRemote.to_.node ≠ openNode.id ∧
      (Node.send openNode envRemote).1.cluster_tx.queue =
        openNode.cluster_tx.queue ++ [ClusterMsg.Envelope envRemote]) :=
  ⟨⟨rfl, ((node_send_routes_by_to_node openNode envLocal).1 rfl).1⟩,
   ⟨by decide,
    ((node_send_routes_by_to_node openNode envRemote).2 (by decide)).2 rfl⟩⟩

/-- C2: whenever Node::send fails, the value handed back is the original
envelope, deep-equal to the input — same from, to, msg and correlation id —
so the envelope is never silently dropped. -/
theorem node_send_failure_preserves_envelope {T : Type} (n : Node T)
    (e e' : Envelope T) (h : (Node.send n e).2 = some e') :
    e' = e ∧ e'.from_ = e.from_ ∧ e'.to_ = e.to_ ∧ e'.msg = e.msg ∧
      e'.correlation_id = e.correlation_id := by
  have he : e' = e := by
    unfold Node.send at h
    by_cases hloc : e.to_.node = n.id
    · rw [if_pos hloc] at h
      exact processes_send_returns_original n.processes e e' h
    · rw [if_neg hloc] at h
      simp only at h
      cases hc : (n.cluster_tx.send (ClusterMsg.Envelope e)).2 with
      | none => rw [hc] at h; simp at h
      | some cm =>
        have hcm := chan_send_returns_original _ _ _ hc
        subst hcm
        rw [hc] at h
        simp at h
        exact h.symm
  exact ⟨he, by rw [he], by rw [he], by rw [he], by rw [he]⟩

/-- C2 witness: sending a concrete remote envelope on a closed cluster
channel fails and hands back exactly the input envelope. -/
theorem node_send_failure_preserves_envelope_witness :
    (Node.send closedNode envRemote).2 = some envRemote ∧
      envRemote = envRemote ∧ envRemote.from_ = envRemote.from_ ∧
      envRemote.to_ = envRemote.to_ ∧ envRemote.msg = envRemote.msg ∧
      envRemote.correlation_id = envRemote.correlation_id :=
  ⟨by decide,
   node_send_failure_preserves_envelope closedNode envRemote envRemote
     (by decide)⟩

/-- C3: for any sequence of positive integer samples, deserializing the
serialization of the histogram built from them succeeds and yields a
histogram with the same sample count and the same values at the 50.0 and
99.9 percentiles. -/
theorem histogram_roundtrip_preserves_stats (vs : List Nat)
    (_hpos : ∀ v ∈ vs, 0 < v) :
    ∃ h' : Histogram,
      Histogram.deserialize (Histogram.serialize (recordAll vs)) = .ok h' ∧
      h'.hist.len = (recordAll vs).hist.len ∧
      h'.hist.valueAtPerMille 500 = (recordAll vs).hist.valueAtPerMille 500 ∧
      h'.hist.valueAtPerMille 999 = (recordAll vs).hist.valueAtPerMille 999 :=
  ⟨recordAll vs, deserialize_serialize (recordAll vs), rfl, rfl, rfl⟩

/-- C3 witness: the spec's example — ten samples of 1 and one sample of 10 —
round trips with count and both queried percentiles preserved. -/
theorem histogram_roundtrip_preserves_stats_witness :
    (∀ v ∈ [1, 1, 1, 1, 1, 1, 1, 1, 1, 1, 10], 0 < v) ∧
    ∃ h' : Histogram,
      Histogram.deserialize
        (Histogram.serialize (recordAll [1, 1, 1, 1, 1, 1, 1, 1, 1, 1, 10])) =
          .ok h' ∧
      h'.hist.len = (recordAll [1, 1, 1, 1, 1, 1, 1, 1, 1, 1, 10]).hist.len ∧
      h'.hist.valueAtPerMille 500 =
        (recordAll [1, 1, 1, 1, 1, 1, 1, 1, 1, 1, 10]).hist.valueAtPerMille
          500 ∧
      h'.hist.valueAtPerMille 999 =
        (recordAll [1, 1, 1, 1, 1, 1, 1, 1, 1, 1, 10]).hist.valueAtPerMille
          999 :=
  ⟨by decide,
   histogram_roundtrip_preserves_stats [1, 1, 1, 1, 1, 1, 1, 1, 1, 1, 10]
     (by decide)⟩

/-- C6: on any byte sequence the native decoder rejects, Histogram
deserialization returns an error value wrapping the decoder's diagnostic
text, and never returns a histogram. -/
theorem histogram_deserialize_malformed_errors (bs : List Nat) (e : String)
    (h : v2decode bs = .error e) :
    Histogram.deserialize (SerdeValue.bytes bs) = .error (serdeCustom e) ∧
      ∀ hh : Histogram,
        Histogram.deserialize (SerdeValue.bytes bs) ≠ .ok hh := by
  constructor
  · simp [Histogram.deserialize, h]
  · intro hh hc
    simp [Histogram.deserialize, h] at hc

/-- C6 witness: the single byte 0 is not a well-formed encoded histogram (its
header cookie is wrong); deserialization surfaces the decoder's diagnostic. -/
theorem histogram_deserialize_malformed_errors_witness :
    v2decode [0] = .error "invalid cookie" ∧
      Histogram.deserialize (SerdeValue.bytes [0]) =
        .error (serdeCustom "invalid cookie") :=
  ⟨rfl,
   (histogram_deserialize_malformed_errors [0] "invalid cookie" rfl).1⟩

/-- C7: serialization encodes the recorder into its native compact V2 binary
format and embeds the buffer in the outer message as one single opaque byte
string — never as a per-element sequence. -/
theorem histogram_serialize_single_byte_string (h : Histogram) :
    Histogram.serialize h = SerdeValue.bytes (v2encode h.hist) ∧
      ∀ l : List SerdeValue, Histogram.serialize h ≠ SerdeValue.seq l :=
  ⟨rfl, fun _ hc => by simp [Histogram.serialize] at hc⟩

/-- C7 witness: the fresh histogram serializes to the single byte string of
its V2 encoding, and in particular not to an empty sequence. -/
theorem histogram_serialize_single_byte_string_witness :
    Histogram.serialize Histogram.new =
        SerdeValue.bytes (v2encode Histogram.new.hist) ∧
      Histogram.serialize Histogram.new ≠ SerdeValue.seq [] :=
  ⟨(histogram_serialize_single_byte_string Histogram.new).1,
   (histogram_serialize_single_byte_string Histogram.new).2 []⟩

/-- C10: deserializing the serialization of any histogram value yields a
histogram structurally equal to it under the wrapped recorder's full
equality — strictly more than preserving the count and the queried
percentiles. -/
theorem histogram_roundtrip_exact (h : Histogram) :
    Histogram.deserialize (Histogram.serialize h) = .ok h :=
  deserialize_serialize h

/-- C4 counterexample: with the cluster channel closed, Node::shutdown does
not fail with a tagged send error — it unwraps the failed channel send and
panics (modelled as none), refuting the claim that every send-like operation
on Node fails with a tagged send error rather than panicking. -/
theorem node_shutdown_panics_on_closed_channel :
    closedNode.cluster_tx.isOpen = false ∧ Node.shutdown closedNode = none :=
  ⟨rfl, rfl⟩

/-- C4 (amended): when the cluster channel is closed, join, leave and
cluster_status fail with a tagged SendError carrying a human-readable
description and, when known, the target Pid; send fails by handing back the
undelivered envelope rather than a tagged error; and shutdown does not fail
at all — it unwraps the failed send and panics. -/
theorem node_send_like_failure_modes {T : Type} (n : Node T) (nid : NodeId)
    (c : CorrelationId) (e : Envelope T)
    (hclosed : n.cluster_tx.isOpen = false) (hrem : e.to_.node ≠ n.id) :
    n.join nid =
        .error (ErrorKind.SendError
          ("ClusterMsg::Join(" ++ nid.debugStr ++ ")") none) ∧
    n.leave nid =
        .error (ErrorKind.SendError
          ("ClusterMsg::Leave(" ++ nid.debugStr ++ ")") none) ∧
    n.clusterStatus c =
        .error (ErrorKind.SendError "ClusterMsg::GetStatus" (some c.pid)) ∧
    (Node.send n e).2 = some e ∧
    Node.shutdown n = none := by
  unfold Node.join Node.leave Node.clusterStatus Node.send Node.shutdown
    Chan.send
  simp [hclosed, hrem]

/-- C4 amended witness: the concrete closed-channel node exhibits all five
failure modes at once. -/
theorem node_send_like_failure_modes_witness :
    closedNode.join nidB =
        .error (ErrorKind.SendError
          ("ClusterMsg::Join(" ++ nidB.debugStr ++ ")") none) ∧
    closedNode.leave nidB =
        .error (ErrorKind.SendError
          ("ClusterMsg::Leave(" ++ nidB.debugStr ++ ")") none) ∧
    closedNode.clusterStatus corr1 =
        .error (ErrorKind.SendError "ClusterMsg::GetStatus"
          (some corr1.pid)) ∧
    (Node.send closedNode envRemote).2 = some envRemote ∧
    Node.shutdown closedNode = none :=
  node_send_like_failure_modes closedNode nidB corr1 envRemote rfl (by decide)

/-- C5: on an open cluster channel, Node::shutdown performs exactly two steps
in order — the ClusterMsg::Shutdown enqueue on the cluster channel first,
the registry shutdown second — so the cluster channel is notified before any
local registry teardown. -/
theorem node_shutdown_order {T : Type} (n : Node T)
    (hopen : n.cluster_tx.isOpen = true) :
    Node.shutdown n =
      some ({ n with
          cluster_tx :=
            { n.cluster_tx with
                queue := n.cluster_tx.queue ++ [ClusterMsg.Shutdown] },
          processes := n.processes.shutdown },
        [Effect.clusterEnqueue ClusterMsg.Shutdown,
         Effect.registryShutdown]) := by
  unfold Node.shutdown Chan.send
  simp [hopen]

/-- C5 witness: shutdown of the concrete open node enqueues
ClusterMsg::Shutdown and then shuts the registry down, in that order. -/
theorem node_shutdown_order_witness :
    openNode.cluster_tx.isOpen = true ∧
      Node.shutdown openNode =
        some ({ openNode with
            cluster_tx :=
              { openNode.cluster_tx with
                  queue := openNode.cluster_tx.queue ++
                    [ClusterMsg.Shutdown] },
            processes := openNode.processes.shutdown },
          [Effect.clusterEnqueue ClusterMsg.Shutdown,
           Effect.registryShutdown]) :=
  ⟨rfl, node_shutdown_order openNode rfl⟩

/-- C8: cluster_status(c) places ClusterMsg::GetStatus(c) on the cluster
channel with c unchanged; when the enqueue fails, the tagged send error
carries some p where p is the correlation id's originating Pid. -/
theorem node_cluster_status_enqueues_getstatus {T : Type} (n : Node T)
    (c : CorrelationId) :
    (n.cluster_tx.isOpen = true →
      n.clusterStatus c =
        .ok { n with
          cluster_tx :=
            { n.cluster_tx with
                queue := n.cluster_tx.queue ++
                  [ClusterMsg.GetStatus c] } }) ∧
    (n.cluster_tx.isOpen = false →
      n.clusterStatus c =
        .error (ErrorKind.SendError "ClusterMsg::GetStatus"
          (some c.pid))) := by
  unfold Node.clusterStatus Chan.send
  constructor <;> intro h <;> simp [h]

/-- C8 witness: the concrete open node enqueues GetStatus with the
correlation id unchanged; the concrete closed node fails with the tagged
error carrying the correlation id's originating Pid. -/
theorem node_cluster_status_enqueues_getstatus_witness :
    openNode.clusterStatus corr1 =
        .ok { openNode with
          cluster_tx :=
            { openNode.cluster_tx with
                queue := openNode.cluster_tx.queue ++
                  [ClusterMsg.GetStatus corr1] } } ∧
      closedNode.clusterStatus corr1 =
        .error (ErrorKind.SendError "ClusterMsg::GetStatus"
          (some corr1.pid)) :=
  ⟨(node_cluster_status_enqueues_getstatus openNode corr1).1 rfl,
   (node_cluster_status_enqueues_getstatus closedNode corr1).2 rfl⟩

/-- C9: Node::stop always succeeds, and killing a Pid with no registry entry
leaves the registry — and the whole node — unchanged. -/
theorem node_stop_absent_pid_is_noop {T : Type} (n : Node T) (p : Pid) :
    (∃ n', Node.stop n p = .ok n') ∧
      ((∀ kv ∈ n.processes.entries, kv.1 ≠ p) → Node.stop n p = .ok n) := by
  constructor
  · exact ⟨_, rfl⟩
  · intro habs
    unfold Node.stop Processes.kill
    have hfix : n.processes.entries.filter (fun kv => kv.1 ≠ p) =
        n.processes.entries := by
      rw [List.filter_eq_self]
      intro a ha
      simpa using habs a ha
    rw [hfix]

/-- C9 witness: stopping an unregistered Pid on the concrete node succeeds
and leaves the node unchanged. -/
theorem node_stop_absent_pid_is_noop_witness :
    (∃ n', Node.stop openNode pidB = .ok n') ∧
      Node.stop openNode pidB = .ok openNode :=
  ⟨(node_stop_absent_pid_is_noop openNode pidB).1,
   (node_stop_absent_pid_is_noop openNode pidB).2 (by simp [openNode])⟩
